import Mathlib

/-!
Shallow embedding of the anylangpodpy content pipeline, translated from the
repository's Python sources:

* `utils/proxy_manager.py` — ProxyPool client (`ProxyManager.get_proxy`).
* `app/services/gdelt.py` — resilient fetcher (`GDELTService._make_request`),
  query normalisation (`GDELTService.search`) and article formatting
  (`GDELTService.search_news`).
* `services/scraper.py` — process-wide rate limiter
  (`Scraper._wait_for_rate_limit`).
* `app/routers/podcast.py` — job orchestrator (`generate_podcast`,
  `generate_podcast_background`, the four in-memory job dictionaries).

Machine strings are modelled as `List Char`; external effects (HTTP
responses, proxy-pool answers, JSON parsing, the text-generation and TTS
collaborators, wall-clock time) are parameters of the embedded functions, and
side effects (proxy acquisition/release, outbound requests, sleeps, job-status
writes) are recorded in explicit event traces.
-/

namespace AnyLangPod

/-! ### Python string primitives

`pyReplace`, `pySplit` and `pyStrip` model Python's `str.replace`,
`str.split(sep)` and `str.strip()` on character lists: `replace` substitutes
non-overlapping occurrences left to right, `split` with a non-empty separator
keeps empty fields, and `strip` drops leading and trailing whitespace. -/

/-- Fuel-driven worker for `pyReplace`.  Each step consumes at least one
character of the subject and one unit of fuel, so with fuel equal to the
subject's length the fuel never runs out. -/
def pyReplaceFuel (old new : List Char) : Nat → List Char → List Char
  | _, [] => []
  | 0, s => s
  | fuel + 1, c :: rest =>
    if !old.isEmpty && old.isPrefixOf (c :: rest) then
      new ++ pyReplaceFuel old new fuel ((c :: rest).drop old.length)
    else
      c :: pyReplaceFuel old new fuel rest

def pyReplace (old new s : List Char) : List Char :=
  pyReplaceFuel old new s.length s

/-- Fuel-driven worker for `pySplit`; same fuel discipline as
`pyReplaceFuel`. -/
def pySplitFuel (sep : List Char) : Nat → List Char → List (List Char)
  | _, [] => [[]]
  | 0, s => [s]
  | fuel + 1, c :: rest =>
    if !sep.isEmpty && sep.isPrefixOf (c :: rest) then
      [] :: pySplitFuel sep fuel ((c :: rest).drop sep.length)
    else
      match pySplitFuel sep fuel rest with
      | [] => [[c]]
      | t :: ts => (c :: t) :: ts

def pySplit (sep s : List Char) : List (List Char) :=
  pySplitFuel sep s.length s

def pyStrip (s : List Char) : List Char :=
  ((s.dropWhile Char.isWhitespace).reverse.dropWhile Char.isWhitespace).reverse

/-- Join a list of character lists with a separator (Python `sep.join`). -/
def joinWith (sep : List Char) : List (List Char) → List Char
  | [] => []
  | [t] => t
  | t :: ts => t ++ sep ++ joinWith sep ts

/-! ### ProxyPool client (`utils/proxy_manager.py`)

`ProxyManager.get_proxy` performs one GET against the pool service; the
pool's answer (HTTP status plus the optional `proxy` field of the JSON body,
or a transport exception) is this model's input. -/

/-- The proxy dictionary built by `ProxyManager.get_proxy`:
`{"http": ..., "https": ...}`. -/
structure Proxy where
  http : String
  https : String
deriving DecidableEq, Repr

/-- What the proxy-pool service's `GET /get?type=https` produced: a response
with a status code and the optional `proxy` field of its JSON body, or a
transport-level exception. -/
inductive PoolResp where
  | resp (status : Nat) (proxyField : Option String)
  | exn
deriving DecidableEq, Repr

/-- `ProxyManager.get_proxy`: on status 200 with a truthy (non-empty) `proxy`
field `"host:port"`, return `{"http": "http://host:port", "https":
"http://host:port"}`; in every other case (non-200, missing or empty field,
exception) return `None`. -/
def get_proxy (r : PoolResp) : Option Proxy :=
  match r with
  | .resp status proxyField =>
    if status = 200 then
      match proxyField with
      | some s => if s ≠ "" then some ⟨"http://" ++ s, "http://" ++ s⟩ else none
      | none => none
    else none
  | .exn => none

/-! ### Resilient fetcher (`GDELTService._make_request`, `app/services/gdelt.py`)

The fetcher loops `for attempt in range(3)`.  Per attempt the environment
supplies what the proxy pool would answer and what the HTTP request would
produce; the model records the side effects (proxy acquisition, the outbound
request, proxy deletion, sleeps) as an event trace. -/

/-- A JSON value, as produced by `json.loads`. -/
inductive JsonV where
  | obj (fields : List (String × JsonV))
  | arr (elems : List JsonV)
  | str (s : String)
  | num (n : Int)
  | bool (b : Bool)
  | null

/-- Python truthiness of a JSON value (`if data:`): empty objects, empty
arrays, empty strings, zero, `False` and `None` are falsy. -/
def JsonV.truthy : JsonV → Bool
  | .obj fields => !fields.isEmpty
  | .arr elems => !elems.isEmpty
  | .str s => s ≠ ""
  | .num n => n ≠ 0
  | .bool b => b
  | .null => false

/-- Outcome of one HTTP GET of `_make_request`: a response (status code, body
text, and the result of `json.loads` on the body — `none` when the body does
not parse), or one of the three caught exception classes
(`asyncio.TimeoutError`, `aiohttp.ClientError`, generic `Exception`). -/
inductive AttemptOutcome where
  | response (status : Nat) (body : String) (parsed : Option JsonV)
  | timeout
  | clientError
  | otherError

/-- Environment of a single attempt: what `get_proxy` would return if called,
and how the HTTP request would end. -/
structure AttemptEnv where
  proxyAvail : Option Proxy
  outcome : AttemptOutcome

/-- Observable events of the fetcher: a proxy-pool acquisition (with its
result), an outbound HTTP request (with the proxy endpoint used, if any), a
proxy deletion (`ProxyManager.delete_proxy`), and a sleep of the given number
of seconds. -/
inductive Ev where
  | acquire (res : Option Proxy)
  | request (usedProxy : Option String)
  | delete (p : Proxy)
  | sleep (secs : Nat)
deriving DecidableEq, Repr

/-- `_make_request`'s success test for one attempt: HTTP 200, non-empty body,
body parses as JSON, and the parsed value is truthy; the payload is returned.
Anything else is a failed attempt. -/
def succPayload : AttemptOutcome → Option JsonV
  | .response status body parsed =>
    if status = 200 ∧ body ≠ "" then
      match parsed with
      | some d => if d.truthy then some d else none
      | none => none
    else none
  | _ => none

/-- One iteration of `_make_request`'s retry loop, for the loop index
`attempt` (0-based, as in `range(3)`).  Returns the parsed payload when the
attempt succeeds (short-circuiting the loop) together with the attempt's
event trace.  Mirrors the source: a proxy is requested only when proxying is
enabled and `attempt < 2`; on non-200 or empty body the acquired proxy is
deleted, likewise in the three exception handlers; on a JSON parse error or a
falsy parsed payload no deletion happens; every failed attempt ends with
`asyncio.sleep(2)`. -/
def attemptStep (proxyEnabled : Bool) (attempt : Nat) (env : AttemptEnv) :
    Option JsonV × List Ev :=
  let proxyDict : Option Proxy :=
    if proxyEnabled ∧ attempt < 2 then env.proxyAvail else none
  let pre : List Ev :=
    (if proxyEnabled ∧ attempt < 2 then [Ev.acquire env.proxyAvail] else []) ++
      [Ev.request (proxyDict.map Proxy.http)]
  let dropProxy : List Ev :=
    match proxyDict with
    | some p => [Ev.delete p]
    | none => []
  match env.outcome with
  | .response status body parsed =>
    if status = 200 ∧ body ≠ "" then
      match parsed with
      | some d =>
        if d.truthy then (some d, pre)
        else (none, pre ++ [Ev.sleep 2])
      | none => (none, pre ++ [Ev.sleep 2])
    else
      (none, pre ++ dropProxy ++ [Ev.sleep 2])
  | .timeout => (none, pre ++ dropProxy ++ [Ev.sleep 2])
  | .clientError => (none, pre ++ dropProxy ++ [Ev.sleep 2])
  | .otherError => (none, pre ++ dropProxy ++ [Ev.sleep 2])

/-- `GDELTService._make_request` with `max_retries = 3`: run the three loop
iterations, stopping at the first successful attempt; return the payload of
that attempt (or `None` after all three fail) and the concatenated event
trace. -/
def make_request (proxyEnabled : Bool) (e0 e1 e2 : AttemptEnv) :
    Option JsonV × List Ev :=
  match attemptStep proxyEnabled 0 e0 with
  | (some d, t0) => (some d, t0)
  | (none, t0) =>
    match attemptStep proxyEnabled 1 e1 with
    | (some d, t1) => (some d, t0 ++ t1)
    | (none, t1) =>
      match attemptStep proxyEnabled 2 e2 with
      | (some d, t2) => (some d, t0 ++ t1 ++ t2)
      | (none, t2) => (none, t0 ++ t1 ++ t2)

/-- Number of outbound HTTP requests in a trace. -/
def countRequests (t : List Ev) : Nat :=
  (t.filter fun e => match e with | .request _ => true | _ => false).length

/-- Number of proxy-pool acquisitions in a trace. -/
def countAcquires (t : List Ev) : Nat :=
  (t.filter fun e => match e with | .acquire _ => true | _ => false).length

/-- Number of deletions of a given proxy in a trace. -/
def countDeletes (p : Proxy) (t : List Ev) : Nat :=
  (t.filter fun e => match e with | .delete q => q = p | _ => false).length

/-- Total seconds slept in a trace. -/
def totalSleep (t : List Ev) : Nat :=
  (t.map fun e => match e with | .sleep s => s | _ => 0).sum

/-! ### Search client (`GDELTService.search` / `GDELTService.search_news`) -/

/-- Query normalisation of `GDELTService.search`: replace `" AND "` by
`" OR "`, split on `" OR "`, strip each term, and keep the terms of length at
least 3. -/
def normTerms (query : List Char) : List (List Char) :=
  ((pySplit " OR ".data (pyReplace " AND ".data " OR ".data query)).map pyStrip).filter
    fun t => 3 ≤ t.length

/-- Query-string construction of `GDELTService.search` from the surviving
terms: `none` when no term remains (the `if not terms: return None` branch),
a single term wrapped in quotes, several terms each quoted and joined with
`" OR "` inside parentheses. -/
def formatQuery (terms : List (List Char)) : Option (List Char) :=
  match terms with
  | [] => none
  | [t] => some ('"' :: (t ++ ['"']))
  | ts => some ('(' :: (joinWith " OR ".data (ts.map fun t => '"' :: (t ++ ['"'])) ++ [')']))

/-- The provider query string `GDELTService.search` builds for a raw query:
normalisation followed by quoting/joining. -/
def searchQueryString (query : List Char) : Option (List Char) :=
  formatQuery (normTerms query)

/-- `GDELTService.search`: when normalisation leaves no term, return `None`
with no network activity at all; otherwise build the URL and delegate to
`_make_request` (whose environment is the three attempt environments). -/
def search (query : List Char) (proxyEnabled : Bool) (e0 e1 e2 : AttemptEnv) :
    Option JsonV × List Ev :=
  match searchQueryString query with
  | none => (none, [])
  | some _ => make_request proxyEnabled e0 e1 e2

/-- A raw provider article as `search_news` sees it: a JSON object whose
`title`, `url`, `sourcecountry` and `seendate` keys may each be absent. -/
structure RawArticle where
  title : Option (List Char)
  url : Option (List Char)
  sourcecountry : Option (List Char)
  seendate : Option (List Char)

/-- The canonical article dictionary built by `search_news`. -/
structure Article where
  title : List Char
  url : List Char
  source : List Char
  date : List Char
deriving DecidableEq

/-- The per-article formatting of `search_news`:
`title = article.get('title', '').strip()`, `url = article.get('url', '')`,
`source = article.get('sourcecountry', 'Unknown')`,
`date = article.get('seendate', '')`. -/
def formatArticle (a : RawArticle) : Article :=
  { title := pyStrip (a.title.getD [])
    url := a.url.getD []
    source := a.sourcecountry.getD "Unknown".data
    date := a.seendate.getD [] }

/-- The article-processing loop of `GDELTService.search_news`: iterate over
`results['articles'][:max_results]` — the raw list truncated to
`max_results` FIRST — format each entry, and append it only when the
formatted title and url are both non-empty. -/
def searchNewsFormat (articles : List RawArticle) (maxResults : Nat) : List Article :=
  ((articles.take maxResults).map formatArticle).filter
    fun fa => !(fa.title == []) && !(fa.url == [])

/-! ### Content-scraper rate limiter (`Scraper._wait_for_rate_limit`,
`services/scraper.py`)

Time is an integer number of seconds; `_min_request_interval = 1`.  The
method reads the clock into `now`, sleeps `interval - (now - last)` when
`now - last < interval`, and then stores `now` — the PRE-sleep clock
reading — into `_last_request_time`.  The outbound request is issued when
the method returns, i.e. at `now` plus the slept amount. -/

/-- One call of `_wait_for_rate_limit` with `_min_request_interval = 1`:
given the stored `_last_request_time` and the clock reading `now`, return
the time at which the method returns (the request issue time) and the new
`_last_request_time`. -/
def waitForRateLimit (last now : Int) : Int × Int :=
  (if now - last < 1 then now + (1 - (now - last)) else now, now)

/-- A sequence of `_wait_for_rate_limit` calls: from the stored timestamp and
the list of clock readings at which successive calls arrive, compute the
request issue times. -/
def rateLimitRun (last : Int) : List Int → List Int
  | [] => []
  | now :: rest =>
    (waitForRateLimit last now).1 :: rateLimitRun (waitForRateLimit last now).2 rest

/-! ### Job orchestrator (`app/routers/podcast.py`)

`generate_podcast` registers the job and returns at once;
`generate_podcast_background` runs afterwards (FastAPI background tasks run
after the response is sent).  The outcomes of the two external collaborators
— `podcast_generator.generate_podcast_script` and
`GoogleTTS().text_to_speech` — are the model's inputs.  The job's four
dictionary slots are a `JobState`; the background run returns the new state
together with the list of values written to `podcast_status`, in order. -/

/-- The audio-information dictionary stored in `podcast_audio`. -/
structure AudioInfo where
  filename : String
  url : String
  contentType : String
  duration : Int
deriving DecidableEq

/-- One job's slots in the four module-level dictionaries `podcast_status`,
`podcast_content`, `podcast_audio`, `podcast_errors` (each `none` before any
write). -/
structure JobState where
  status : Option String
  content : Option String
  audio : Option AudioInfo
  error : Option String
deriving DecidableEq

/-- The body `generate_podcast` returns (model `PodcastResponse`). -/
structure PodcastResponse where
  keyword : String
  content : Option String
  audioUrl : Option String
  duration : Option Int
  status : String
  requestId : Option String
  error : Option String
deriving DecidableEq

/-- `generate_podcast` (the submission handler): initialise the job's slots
to `processing` / `""` / `None` / `None`, schedule the background task — it
has not run yet when the response is produced — and return the response with
`status="processing"`. -/
def generate_podcast (keyword requestId : String) : PodcastResponse × JobState :=
  ({ keyword := keyword
     content := some ""
     audioUrl := none
     duration := none
     status := "processing"
     requestId := some requestId
     error := none },
   { status := some "processing", content := some "", audio := none, error := none })

/-- Outcome of `podcast_generator.generate_podcast_script`: a returned string
(possibly empty) or a raised exception with its message. -/
inductive ScriptResult where
  | ok (script : String)
  | exn (msg : String)
deriving DecidableEq

/-- Outcome of `GoogleTTS().text_to_speech`: a duration on success, or a
raised exception with its message. -/
inductive TTSResult where
  | ok (duration : Int)
  | fail (msg : String)
deriving DecidableEq

/-- Script post-processing of `generate_podcast_background` (lines 107–111):
strip `**`, `*`, `[`, `]`, `Host:`, `---`, `Music`, `Intro:`, `Outro:` in
that order, drop every line whose stripped form starts with `(` or ends with
`)`, and strip the result. -/
def cleanScriptChars (s : List Char) : List Char :=
  let s1 := pyReplace "**".data [] s
  let s2 := pyReplace "*".data [] s1
  let s3 := pyReplace "[".data [] s2
  let s4 := pyReplace "]".data [] s3
  let s5 := pyReplace "Host:".data [] s4
  let s6 := pyReplace "---".data [] s5
  let s7 := pyReplace "Music".data [] s6
  let s8 := pyReplace "Intro:".data [] s7
  let s9 := pyReplace "Outro:".data [] s8
  let kept := (pySplit ['\n'] s9).filter fun line =>
    !((pyStrip line).head? == some '(') && !((pyStrip line).getLast? == some ')')
  pyStrip (joinWith ['\n'] kept)

/-- `cleanScriptChars` on `String`. -/
def cleanScript (s : String) : String :=
  String.mk (cleanScriptChars s.data)

/-- `generate_podcast_background`: store the script (empty string when falsy);
on a falsy script set `status="error"` with the "No content generated"
message; on an exception from script generation set `status="error"` with the
exception's message; otherwise store the cleaned script, set
`status="success"`, and attempt TTS — on TTS success store the audio
dictionary, on TTS failure record `"TTS failed: ..."` in the error slot and
leave status and content untouched.  Returns the final state and the ordered
list of values written to `podcast_status`. -/
def generate_podcast_background (keyword audioFilename : String)
    (scriptRes : ScriptResult) (tts : TTSResult) (st : JobState) :
    JobState × List String :=
  match scriptRes with
  | .exn e => ({ st with status := some "error", error := some e }, ["error"])
  | .ok script =>
    let st1 := { st with content := some script }
    if script = "" then
      ({ st1 with
          status := some "error"
          error := some ("No content generated for topic: " ++ keyword) }, ["error"])
    else
      let cleaned := cleanScript script
      let st2 := { st1 with content := some cleaned, status := some "success" }
      match tts with
      | .ok dur =>
        let info : AudioInfo :=
          { filename := audioFilename
            url := "/output/" ++ audioFilename
            contentType := "audio/mpeg"
            duration := dur }
        ({ st2 with audio := some info }, ["success"])
      | .fail e =>
        ({ st2 with error := some ("TTS failed: " ++ e) }, ["success"])

/-- Whether a status string is terminal. -/
def isTerminalStatus (s : String) : Bool :=
  s == "success" || s == "error"

/-- A status-write sequence never leaves a terminal value: every element that
is followed by a further write is non-terminal. -/
def noStatusRegress : List String → Bool
  | a :: b :: rest => !isTerminalStatus a && noStatusRegress (b :: rest)
  | _ => true

/-- The failure classes of an attempt that `_make_request` notices before (or
instead of) `json.loads`: non-200 status or empty body, and the three caught
exception classes.  These are exactly the branches that delete an acquired
proxy; a JSON parse error and a falsy parsed payload are not among them. -/
def failsBeforeParse : AttemptOutcome → Bool
  | .response status body _ => !(status == 200 && !(body == ""))
  | .timeout => true
  | .clientError => true
  | .otherError => true

/-! ### Helper lemmas -/

theorem countRequests_append (s t : List Ev) :
    countRequests (s ++ t) = countRequests s + countRequests t := by
  simp [countRequests, List.filter_append]

theorem countAcquires_append (s t : List Ev) :
    countAcquires (s ++ t) = countAcquires s + countAcquires t := by
  simp [countAcquires, List.filter_append]

theorem countDeletes_append (p : Proxy) (s t : List Ev) :
    countDeletes p (s ++ t) = countDeletes p s + countDeletes p t := by
  simp [countDeletes, List.filter_append]

theorem totalSleep_append (s t : List Ev) :
    totalSleep (s ++ t) = totalSleep s + totalSleep t := by
  simp [totalSleep]

theorem attemptStep_fst (pe : Bool) (i : Nat) (env : AttemptEnv) :
    (attemptStep pe i env).1 = succPayload env.outcome := by
  rcases env with ⟨pa, out⟩
  cases out with
  | response status body parsed =>
    simp only [attemptStep, succPayload]
    split
    · cases parsed with
      | some d => by_cases ht : d.truthy = true <;> simp [ht]
      | none => rfl
    · rfl
  | timeout => rfl
  | clientError => rfl
  | otherError => rfl

theorem attemptStep_countRequests (pe : Bool) (i : Nat) (env : AttemptEnv) :
    countRequests (attemptStep pe i env).2 = 1 := by
  rcases env with ⟨pa, out⟩
  rcases out with ⟨status, body, parsed⟩ | _ | _ | _ <;>
    try rcases parsed with _ | d
  all_goals cases pa
  all_goals simp only [attemptStep]
  all_goals split_ifs
  all_goals rfl

theorem attemptStep_countAcquires (pe : Bool) (i : Nat) (env : AttemptEnv) :
    countAcquires (attemptStep pe i env).2 = if pe = true ∧ i < 2 then 1 else 0 := by
  rcases env with ⟨pa, out⟩
  rcases out with ⟨status, body, parsed⟩ | _ | _ | _ <;>
    try rcases parsed with _ | d
  all_goals cases pa
  all_goals simp only [attemptStep]
  all_goals split_ifs
  all_goals rfl

theorem attemptStep_totalSleep_of_fail (pe : Bool) (i : Nat) (env : AttemptEnv)
    (h : succPayload env.outcome = none) :
    totalSleep (attemptStep pe i env).2 = 2 := by
  rcases env with ⟨pa, out⟩
  rcases out with ⟨status, body, parsed⟩ | _ | _ | _ <;>
    try rcases parsed with _ | d
  all_goals simp only [succPayload] at h
  all_goals cases pa
  all_goals simp only [attemptStep]
  all_goals split_ifs
  all_goals first
    | rfl
    | simp_all [totalSleep]

theorem attemptStep_totalSleep_of_succ (pe : Bool) (i : Nat) (env : AttemptEnv)
    (d : JsonV) (h : succPayload env.outcome = some d) :
    totalSleep (attemptStep pe i env).2 = 0 := by
  rcases env with ⟨pa, out⟩
  rcases out with ⟨status, body, parsed⟩ | _ | _ | _ <;>
    try rcases parsed with _ | d'
  all_goals simp only [succPayload] at h
  all_goals cases pa
  all_goals simp only [attemptStep]
  all_goals split_ifs
  all_goals first
    | rfl
    | simp_all [totalSleep]

/-- `make_request` rephrased through `succPayload`: the loop body's result is
`succPayload` of the attempt's outcome, so the whole call is a cascade on the
three attempts' success tests. -/
theorem make_request_eq (pe : Bool) (e0 e1 e2 : AttemptEnv) :
    make_request pe e0 e1 e2 =
      match succPayload e0.outcome with
      | some d => (some d, (attemptStep pe 0 e0).2)
      | none =>
        match succPayload e1.outcome with
        | some d => (some d, (attemptStep pe 0 e0).2 ++ (attemptStep pe 1 e1).2)
        | none =>
          match succPayload e2.outcome with
          | some d =>
            (some d, (attemptStep pe 0 e0).2 ++ (attemptStep pe 1 e1).2 ++ (attemptStep pe 2 e2).2)
          | none =>
            (none, (attemptStep pe 0 e0).2 ++ (attemptStep pe 1 e1).2 ++ (attemptStep pe 2 e2).2) := by
  have h0 : attemptStep pe 0 e0 = (succPayload e0.outcome, (attemptStep pe 0 e0).2) := by
    rw [← attemptStep_fst pe 0 e0]
  have h1 : attemptStep pe 1 e1 = (succPayload e1.outcome, (attemptStep pe 1 e1).2) := by
    rw [← attemptStep_fst pe 1 e1]
  have h2 : attemptStep pe 2 e2 = (succPayload e2.outcome, (attemptStep pe 2 e2).2) := by
    rw [← attemptStep_fst pe 2 e2]
  conv_lhs => rw [make_request, h0, h1, h2]
  cases succPayload e0.outcome <;> cases succPayload e1.outcome <;>
    cases succPayload e2.outcome <;> rfl

/-! ### Claim theorems -/

/-- C1: for every job, the status registered by `generate_podcast` starts as
`"processing"` and thereafter changes at most once, only to `"success"` or
`"error"`: the submission handler returns `status="processing"` immediately
(the background task runs only after the response is produced), and the
background pipeline performs exactly one further status write, which is
terminal, so no trace moves from a terminal value back to `"processing"` or
between the two terminal values. -/
theorem job_status_single_transition (kw rid af : String)
    (sr : ScriptResult) (tts : TTSResult) :
    (generate_podcast kw rid).1.status = "processing" ∧
    (generate_podcast kw rid).2.status = some "processing" ∧
    noStatusRegress
      ("processing" :: (generate_podcast_background kw af sr tts (generate_podcast kw rid).2).2)
        = true ∧
    ((generate_podcast_background kw af sr tts (generate_podcast kw rid).2).2 = ["success"] ∨
      (generate_podcast_background kw af sr tts (generate_podcast kw rid).2).2 = ["error"]) := by
  refine ⟨rfl, rfl, ?_, ?_⟩ <;>
    rcases sr with script | msg <;>
    try by_cases hs : script = "" <;>
    rcases tts with dur | msg <;>
    simp [generate_podcast_background, generate_podcast, noStatusRegress, isTerminalStatus, hs]
  all_goals rcases tts with dur | emsg <;>
    simp [generate_podcast_background, generate_podcast, noStatusRegress, isTerminalStatus]

/-- C2: over all environments of the three attempts, `_make_request` returns
the payload of the first attempt that passes the code's success test, issuing
no request after it and sleeping 2 seconds for each failed attempt before it;
when all three attempts fail it returns `None` after 2 × 3 seconds of sleep;
and with proxying enabled a proxy is acquired exactly on the executed
attempts of index 0 and 1 — never on the final attempt. -/
theorem make_request_retry_contract (pe : Bool) (e0 e1 e2 : AttemptEnv) :
    (∀ d, succPayload e0.outcome = some d →
      (make_request pe e0 e1 e2).1 = some d ∧
      countRequests (make_request pe e0 e1 e2).2 = 1 ∧
      totalSleep (make_request pe e0 e1 e2).2 = 0) ∧
    (succPayload e0.outcome = none → ∀ d, succPayload e1.outcome = some d →
      (make_request pe e0 e1 e2).1 = some d ∧
      countRequests (make_request pe e0 e1 e2).2 = 2 ∧
      totalSleep (make_request pe e0 e1 e2).2 = 2 * 1) ∧
    (succPayload e0.outcome = none → succPayload e1.outcome = none →
      ∀ d, succPayload e2.outcome = some d →
      (make_request pe e0 e1 e2).1 = some d ∧
      countRequests (make_request pe e0 e1 e2).2 = 3 ∧
      totalSleep (make_request pe e0 e1 e2).2 = 2 * 2) ∧
    (succPayload e0.outcome = none → succPayload e1.outcome = none →
      succPayload e2.outcome = none →
      (make_request pe e0 e1 e2).1 = none ∧
      countRequests (make_request pe e0 e1 e2).2 = 3 ∧
      totalSleep (make_request pe e0 e1 e2).2 = 2 * 3) ∧
    (pe = true →
      countAcquires (attemptStep pe 0 e0).2 = 1 ∧
      countAcquires (attemptStep pe 1 e1).2 = 1 ∧
      countAcquires (attemptStep pe 2 e2).2 = 0 ∧
      countAcquires (make_request pe e0 e1 e2).2 ≤ 2) := by
  have heq := make_request_eq pe e0 e1 e2
  refine ⟨?_, ?_, ?_, ?_, ?_⟩
  · intro d h0
    rw [heq, h0]
    refine ⟨rfl, ?_, ?_⟩
    · simp [attemptStep_countRequests]
    · simp [attemptStep_totalSleep_of_succ pe 0 e0 d h0]
  · intro h0 d h1
    rw [heq, h0, h1]
    refine ⟨rfl, ?_, ?_⟩
    · simp [countRequests_append, attemptStep_countRequests]
    · simp [totalSleep_append, attemptStep_totalSleep_of_fail pe 0 e0 h0,
        attemptStep_totalSleep_of_succ pe 1 e1 d h1]
  · intro h0 h1 d h2
    rw [heq, h0, h1, h2]
    refine ⟨rfl, ?_, ?_⟩
    · simp [countRequests_append, attemptStep_countRequests]
    · simp [totalSleep_append, attemptStep_totalSleep_of_fail pe 0 e0 h0,
        attemptStep_totalSleep_of_fail pe 1 e1 h1,
        attemptStep_totalSleep_of_succ pe 2 e2 d h2]
  · intro h0 h1 h2
    rw [heq, h0, h1, h2]
    refine ⟨rfl, ?_, ?_⟩
    · simp [countRequests_append, attemptStep_countRequests]
    · simp [totalSleep_append, attemptStep_totalSleep_of_fail pe 0 e0 h0,
        attemptStep_totalSleep_of_fail pe 1 e1 h1,
        attemptStep_totalSleep_of_fail pe 2 e2 h2]
  · intro hpe
    subst hpe
    refine ⟨?_, ?_, ?_, ?_⟩
    · simp [attemptStep_countAcquires]
    · simp [attemptStep_countAcquires]
    · simp [attemptStep_countAcquires]
    · rw [heq]
      cases succPayload e0.outcome <;> cases succPayload e1.outcome <;>
        cases succPayload e2.outcome <;>
        simp [countAcquires_append, attemptStep_countAcquires]

/-- C2 witness: with proxying enabled and all three attempts timing out, the
call returns `None` after three requests and six seconds of sleep, and
acquires at most two proxies. -/
theorem make_request_retry_contract_witness :
    (make_request true ⟨none, .timeout⟩ ⟨none, .timeout⟩ ⟨none, .timeout⟩).1 = none ∧
    countRequests (make_request true ⟨none, .timeout⟩ ⟨none, .timeout⟩ ⟨none, .timeout⟩).2 = 3 ∧
    totalSleep (make_request true ⟨none, .timeout⟩ ⟨none, .timeout⟩ ⟨none, .timeout⟩).2 = 2 * 3 ∧
    countAcquires (make_request true ⟨none, .timeout⟩ ⟨none, .timeout⟩ ⟨none, .timeout⟩).2 ≤ 2 := by
  have h := make_request_retry_contract true ⟨none, .timeout⟩ ⟨none, .timeout⟩ ⟨none, .timeout⟩
  obtain ⟨hres, hreq, hsleep⟩ := h.2.2.2.1 rfl rfl rfl
  exact ⟨hres, hreq, hsleep, (h.2.2.2.2 rfl).2.2.2⟩

/-- C4 counterexample: an attempt that acquires a proxy and then fails with a
JSON parse error (HTTP 200, non-empty body `"not json"`, `json.loads`
raises) does NOT release the proxy: its trace is acquire, request, sleep —
no delete event — refuting "on every failed attempt ... the fetcher releases
that proxy". -/
theorem attempt_parse_error_keeps_proxy :
    succPayload (AttemptEnv.mk
        (some ⟨"http://10.0.0.1:8080", "http://10.0.0.1:8080"⟩)
        (.response 200 "not json" none)).outcome = none ∧
    (attemptStep true 0 (AttemptEnv.mk
        (some ⟨"http://10.0.0.1:8080", "http://10.0.0.1:8080"⟩)
        (.response 200 "not json" none))).2 =
      [Ev.acquire (some ⟨"http://10.0.0.1:8080", "http://10.0.0.1:8080"⟩),
        Ev.request (some "http://10.0.0.1:8080"),
        Ev.sleep 2] ∧
    countDeletes ⟨"http://10.0.0.1:8080", "http://10.0.0.1:8080"⟩
      (attemptStep true 0 (AttemptEnv.mk
        (some ⟨"http://10.0.0.1:8080", "http://10.0.0.1:8080"⟩)
        (.response 200 "not json" none))).2 = 0 := by
  refine ⟨rfl, ?_, rfl⟩
  decide

/-- C4 amended: on a failed attempt whose failure is a non-200 status, an
empty body, a client/network error, or a timeout — the failures noticed
before JSON parsing — an acquired proxy is deleted before the sleep: the
attempt's trace is exactly acquire, request, delete, sleep 2.  (On a JSON
parse error or an empty parsed payload the proxy is not released, per the
counterexample.) -/
theorem attempt_failure_releases_proxy (pe : Bool) (i : Nat) (env : AttemptEnv) (p : Proxy)
    (hacq : (if pe = true ∧ i < 2 then env.proxyAvail else none) = some p)
    (hkind : failsBeforeParse env.outcome = true) :
    (attemptStep pe i env).2 =
      [Ev.acquire env.proxyAvail, Ev.request (some p.http), Ev.delete p, Ev.sleep 2] := by
  by_cases hc : pe = true ∧ i < 2
  · rw [if_pos hc] at hacq
    rcases env with ⟨pa, out⟩
    simp only at hacq
    subst hacq
    rcases out with ⟨status, body, parsed⟩ | _ | _ | _ <;>
      simp_all [attemptStep, failsBeforeParse, hc]
    rw [if_neg (by tauto)]
  · rw [if_neg hc] at hacq
    exact absurd hacq (by simp)

/-- C4 witness: proxying enabled, attempt 0, a timeout with an acquired
proxy — the trace shows the delete between the request and the sleep. -/
theorem attempt_failure_releases_proxy_witness :
    (attemptStep true 0 (AttemptEnv.mk
        (some ⟨"http://10.0.0.2:3128", "http://10.0.0.2:3128"⟩) .timeout)).2 =
      [Ev.acquire (some ⟨"http://10.0.0.2:3128", "http://10.0.0.2:3128"⟩),
        Ev.request (some "http://10.0.0.2:3128"),
        Ev.delete ⟨"http://10.0.0.2:3128", "http://10.0.0.2:3128"⟩,
        Ev.sleep 2] :=
  attempt_failure_releases_proxy true 0
    (AttemptEnv.mk (some ⟨"http://10.0.0.2:3128", "http://10.0.0.2:3128"⟩) .timeout)
    ⟨"http://10.0.0.2:3128", "http://10.0.0.2:3128"⟩ (by decide) rfl

/-- C5 counterexample: every attempt receives HTTP 200 with the non-empty
body `"[]"`, which parses as the empty JSON array — yet `_make_request`
treats each such attempt as a failure (`if data:` is false on an empty
array), makes all three attempts and returns `None` instead of the parsed
payload. -/
theorem empty_json_not_returned :
    (make_request false
      (AttemptEnv.mk none (.response 200 "[]" (some (.arr []))))
      (AttemptEnv.mk none (.response 200 "[]" (some (.arr []))))
      (AttemptEnv.mk none (.response 200 "[]" (some (.arr []))))).1 = none ∧
    countRequests (make_request false
      (AttemptEnv.mk none (.response 200 "[]" (some (.arr []))))
      (AttemptEnv.mk none (.response 200 "[]" (some (.arr []))))
      (AttemptEnv.mk none (.response 200 "[]" (some (.arr []))))).2 = 3 ∧
    ("[]" : String) ≠ "" := by
  refine ⟨rfl, rfl, by decide⟩

/-- C5 amended: whenever an attempt receives HTTP 200 with a non-empty body
that parses to a TRUTHY JSON value (non-empty object or array, non-empty
string, non-zero number, `true`), the call returns that parsed payload
immediately with no further attempt; bodies parsing to an empty JSON object
or empty array are instead treated as failed attempts. -/
theorem truthy_json_short_circuits (pe : Bool) (pa : Option Proxy) (body : String)
    (d : JsonV) (e1 e2 : AttemptEnv)
    (hb : body ≠ "") (ht : d.truthy = true) :
    (make_request pe (AttemptEnv.mk pa (.response 200 body (some d))) e1 e2).1 = some d ∧
    countRequests
      (make_request pe (AttemptEnv.mk pa (.response 200 body (some d))) e1 e2).2 = 1 := by
  have hs : succPayload (AttemptEnv.mk pa (.response 200 body (some d))).outcome = some d := by
    simp [succPayload, hb, ht]
  rw [make_request_eq]
  rw [hs]
  exact ⟨rfl, attemptStep_countRequests pe 0 _⟩

/-- C5 witness: a 200 response with body `"[1]"` parsing to the singleton
array `[1]` (truthy) is returned from the first attempt. -/
theorem truthy_json_short_circuits_witness :
    (make_request false (AttemptEnv.mk none (.response 200 "[1]" (some (.arr [.num 1]))))
      (AttemptEnv.mk none .timeout) (AttemptEnv.mk none .timeout)).1 =
        some (.arr [.num 1]) ∧
    countRequests
      (make_request false (AttemptEnv.mk none (.response 200 "[1]" (some (.arr [.num 1]))))
        (AttemptEnv.mk none .timeout) (AttemptEnv.mk none .timeout)).2 = 1 :=
  truthy_json_short_circuits false none "[1]" (.arr [.num 1])
    (AttemptEnv.mk none .timeout) (AttemptEnv.mk none .timeout) (by decide) rfl

/-- C3 counterexample: script generation can succeed with the truthy string
`"**"`, whose cleanup strips everything; when TTS then fails, the job ends
with `status="success"` but the stored script is the EMPTY string — refuting
"the stored script is the non-empty cleaned script". -/
theorem tts_failure_empty_cleaned_script :
    ("**" : String) ≠ "" ∧
    cleanScript "**" = "" ∧
    (generate_podcast_background "AI" "ai.mp3" (.ok "**") (.fail "synthesis failure")
        (generate_podcast "AI" "AI_20240101_000000").2).1.status = some "success" ∧
    (generate_podcast_background "AI" "ai.mp3" (.ok "**") (.fail "synthesis failure")
        (generate_podcast "AI" "AI_20240101_000000").2).1.content = some "" := by
  refine ⟨by decide, by decide, ?_, ?_⟩ <;> rfl

/-- C3 amended: for every job whose script generation returns a truthy
(non-empty) script and whose TTS step fails, the final status is
`"success"`, the stored script is the cleaned script (non-empty whenever
cleanup leaves any content, though cleanup may strip a degenerate script to
empty), the audio slot stays `None`, and the error slot records the TTS
failure — the TTS failure never changes the status or erases the script. -/
theorem tts_failure_keeps_success (kw rid af script emsg : String)
    (h : script ≠ "") :
    (generate_podcast_background kw af (.ok script) (.fail emsg)
        (generate_podcast kw rid).2).1.status = some "success" ∧
    (generate_podcast_background kw af (.ok script) (.fail emsg)
        (generate_podcast kw rid).2).1.content = some (cleanScript script) ∧
    (generate_podcast_background kw af (.ok script) (.fail emsg)
        (generate_podcast kw rid).2).1.audio = none ∧
    (generate_podcast_background kw af (.ok script) (.fail emsg)
        (generate_podcast kw rid).2).1.error = some ("TTS failed: " ++ emsg) ∧
    (cleanScript script ≠ "" →
      (generate_podcast_background kw af (.ok script) (.fail emsg)
        (generate_podcast kw rid).2).1.content ≠ some "") := by
  simp [generate_podcast_background, generate_podcast, h]

/-- C3 witness: keyword `"AI"`, script `"Hello world"`, TTS failure
`"boom"`. -/
theorem tts_failure_keeps_success_witness :
    (generate_podcast_background "AI" "ai.mp3" (.ok "Hello world") (.fail "boom")
        (generate_podcast "AI" "AI_20240101_000000").2).1.status = some "success" ∧
    (generate_podcast_background "AI" "ai.mp3" (.ok "Hello world") (.fail "boom")
        (generate_podcast "AI" "AI_20240101_000000").2).1.content =
          some (cleanScript "Hello world") ∧
    (generate_podcast_background "AI" "ai.mp3" (.ok "Hello world") (.fail "boom")
        (generate_podcast "AI" "AI_20240101_000000").2).1.audio = none ∧
    (generate_podcast_background "AI" "ai.mp3" (.ok "Hello world") (.fail "boom")
        (generate_podcast "AI" "AI_20240101_000000").2).1.error =
          some ("TTS failed: " ++ "boom") := by
  have h := tts_failure_keeps_success "AI" "AI_20240101_000000" "ai.mp3" "Hello world" "boom"
    (by decide)
  exact ⟨h.1, h.2.1, h.2.2.1, h.2.2.2.1⟩

/-- C6 counterexample: with `max_results = 2` and the raw payload
`[missing-title, valid, valid]` — which holds 2 entries with non-empty title
and url — `search_news` returns only 1 article, because the code truncates
the raw list to `max_results` BEFORE filtering out invalid entries, not
after. -/
theorem search_news_drops_below_max :
    (([RawArticle.mk (some "".data) (some "http://u".data) none none,
        RawArticle.mk (some "Title A".data) (some "http://a".data) none none,
        RawArticle.mk (some "Title B".data) (some "http://b".data) none none].filter
          fun a => !(a.title.getD [] == []) && !(a.url.getD [] == [])).length = 2) ∧
    (searchNewsFormat
        [RawArticle.mk (some "".data) (some "http://u".data) none none,
          RawArticle.mk (some "Title A".data) (some "http://a".data) none none,
          RawArticle.mk (some "Title B".data) (some "http://b".data) none none] 2).length
      = 1 := by
  refine ⟨by decide, by decide⟩

/-- C6 amended: `search_news` truncates the raw article list to `maxResults`
FIRST and then keeps the entries whose formatted title and url are
non-empty; hence when every entry among the first `maxResults` raw entries
is kept, the result is exactly the first `maxResults` raw entries (all of
them when fewer exist), formatted by the canonical field mapping, in payload
order. -/
theorem search_news_truncate_then_filter (articles : List RawArticle) (maxResults : Nat)
    (h : ∀ a ∈ articles.take maxResults,
      (!((formatArticle a).title == []) && !((formatArticle a).url == [])) = true) :
    searchNewsFormat articles maxResults = (articles.take maxResults).map formatArticle ∧
    (searchNewsFormat articles maxResults).length = min maxResults articles.length := by
  have hfilter : searchNewsFormat articles maxResults
      = (articles.take maxResults).map formatArticle := by
    apply List.filter_eq_self.mpr
    intro fa hfa
    obtain ⟨a, ha, rfl⟩ := List.mem_map.mp hfa
    exact h a ha
  refine ⟨hfilter, ?_⟩
  rw [hfilter]
  simp [List.length_take]

/-- C6 witness: three valid raw articles, `maxResults = 2` — exactly 2
canonical articles come back, in payload order. -/
theorem search_news_truncate_then_filter_witness :
    searchNewsFormat
        [RawArticle.mk (some "Title A".data) (some "http://a".data) none none,
          RawArticle.mk (some "Title B".data) (some "http://b".data) none none,
          RawArticle.mk (some "Title C".data) (some "http://c".data) none none] 2 =
      [formatArticle (RawArticle.mk (some "Title A".data) (some "http://a".data) none none),
        formatArticle (RawArticle.mk (some "Title B".data) (some "http://b".data) none none)] ∧
    (searchNewsFormat
        [RawArticle.mk (some "Title A".data) (some "http://a".data) none none,
          RawArticle.mk (some "Title B".data) (some "http://b".data) none none,
          RawArticle.mk (some "Title C".data) (some "http://c".data) none none] 2).length
      = min 2 3 := by
  have h := search_news_truncate_then_filter
    [RawArticle.mk (some "Title A".data) (some "http://a".data) none none,
      RawArticle.mk (some "Title B".data) (some "http://b".data) none none,
      RawArticle.mk (some "Title C".data) (some "http://c".data) none none] 2
    (by decide)
  exact ⟨h.1, h.2⟩

/-- C7: the rate limiter stores the PRE-sleep clock reading into
`_last_request_time`, so consecutive outbound requests can be issued less
than 1 second apart, contradicting the intended minimum spacing the
source's own comments state (`_min_request_interval = 1  # Minimum seconds
between requests`).  With the stored timestamp initially 0 and three
sequential calls arriving at times 2, 2 and 3 (each arrival no earlier than
the previous request's issue time), the requests are issued at times 2, 3
and 3: the second and third requests are 0 < 1 seconds apart. -/
theorem rate_limiter_gap_violation :
    rateLimitRun 0 [2, 2, 3] = [2, 3, 3] ∧
    ((2 : Int) ≥ 2 ∧ (3 : Int) ≥ 3) ∧
    (3 : Int) - 3 < 1 := by
  refine ⟨by decide, by decide, by decide⟩

/-- C8 counterexample: the raw queries `"a AND AND c"` and `"a OR AND c"`
differ only in one `" AND "` versus `" OR "` token, yet `search` builds
different provider query strings (`"AND c"` versus `"OR c"`), because
replacing `" AND "` with `" OR "` consumes overlapping occurrences
left-to-right — refuting the universally quantified claim. -/
theorem and_or_token_not_equivalent :
    ("a AND AND c" : String) = "a" ++ " AND " ++ "AND c" ∧
    ("a OR AND c" : String) = "a" ++ " OR " ++ "AND c" ∧
    searchQueryString "a AND AND c".data = some "\"AND c\"".data ∧
    searchQueryString "a OR AND c".data = some "\"OR c\"".data ∧
    searchQueryString "a AND AND c".data ≠ searchQueryString "a OR AND c".data := by
  refine ⟨by decide, by decide, by decide, by decide, by decide⟩

/-- C8 amended: the scenario's pair behaves as claimed — `"Apple AND
Orange"` and `"Apple OR Orange"` both build `("Apple" OR "Orange")` — and
the quoting rules hold: a single surviving term is wrapped in quotes, two or
more surviving terms are each quoted and joined with `" OR "` inside
parentheses; but two raw queries differing only in an `" AND "`/`" OR "`
token can build different strings when the replacement creates overlapping
connective tokens (see the counterexample). -/
theorem and_or_query_formatting (t t1 t2 : List Char) :
    searchQueryString "Apple AND Orange".data = some "(\"Apple\" OR \"Orange\")".data ∧
    searchQueryString "Apple OR Orange".data = some "(\"Apple\" OR \"Orange\")".data ∧
    formatQuery [] = none ∧
    formatQuery [t] = some ("\"".data ++ t ++ "\"".data) ∧
    formatQuery [t1, t2] =
      some ("(\"".data ++ t1 ++ "\" OR \"".data ++ t2 ++ "\")".data) := by
  refine ⟨by decide, by decide, rfl, by simp [formatQuery], ?_⟩
  simp [formatQuery, joinWith]

/-- C9: for every raw query that retains no term of length at least 3 after
AND/OR splitting and trimming, `search` returns `None` with an empty event
trace: zero outbound requests and zero proxy acquisitions, whatever the
attempt environments would have produced. -/
theorem short_query_no_network (query : List Char) (pe : Bool) (e0 e1 e2 : AttemptEnv)
    (h : normTerms query = []) :
    search query pe e0 e1 e2 = (none, []) ∧
    countRequests (search query pe e0 e1 e2).2 = 0 ∧
    countAcquires (search query pe e0 e1 e2).2 = 0 := by
  have hq : searchQueryString query = none := by
    simp [searchQueryString, formatQuery, h]
  refine ⟨?_, ?_, ?_⟩ <;> simp [search, hq] <;> rfl

/-- C9 witness: the query `"ab"` (single term of length 2) triggers the
fail-fast path. -/
theorem short_query_no_network_witness :
    search "ab".data true (AttemptEnv.mk none .timeout) (AttemptEnv.mk none .timeout)
        (AttemptEnv.mk none .timeout) = (none, []) ∧
    countRequests (search "ab".data true (AttemptEnv.mk none .timeout)
        (AttemptEnv.mk none .timeout) (AttemptEnv.mk none .timeout)).2 = 0 ∧
    countAcquires (search "ab".data true (AttemptEnv.mk none .timeout)
        (AttemptEnv.mk none .timeout) (AttemptEnv.mk none .timeout)).2 = 0 :=
  short_query_no_network "ab".data true (AttemptEnv.mk none .timeout)
    (AttemptEnv.mk none .timeout) (AttemptEnv.mk none .timeout) (by decide)

/-- C10: whenever `ProxyManager.get_proxy` returns a proxy, both endpoints
are the identical string `"http://" ++ s` built from the pool's `proxy`
field `s` — the `https` endpoint never carries the `https` scheme — so the
two endpoints of every returned proxy are equal. -/
theorem get_proxy_endpoints_equal (r : PoolResp) (p : Proxy)
    (h : get_proxy r = some p) :
    p.http = p.https ∧
    ∃ s, r = .resp 200 (some s) ∧ s ≠ "" ∧ p.http = "http://" ++ s := by
  rcases r with ⟨status, pf⟩ | _
  · rcases pf with _ | s
    · simp only [get_proxy] at h
      split_ifs at h
    · simp only [get_proxy] at h
      split_ifs at h with h200 hs
      obtain rfl : Proxy.mk ("http://" ++ s) ("http://" ++ s) = p := Option.some.inj h
      subst h200
      exact ⟨rfl, s, rfl, hs, rfl⟩
  · simp [get_proxy] at h

/-- C10 witness: pool answer `{"proxy": "1.2.3.4:8080"}` with status 200. -/
theorem get_proxy_endpoints_equal_witness :
    get_proxy (.resp 200 (some "1.2.3.4:8080")) =
      some ⟨"http://1.2.3.4:8080", "http://1.2.3.4:8080"⟩ ∧
    (Proxy.mk "http://1.2.3.4:8080" "http://1.2.3.4:8080").http =
      (Proxy.mk "http://1.2.3.4:8080" "http://1.2.3.4:8080").https := by
  have h := get_proxy_endpoints_equal (.resp 200 (some "1.2.3.4:8080"))
    ⟨"http://1.2.3.4:8080", "http://1.2.3.4:8080"⟩ (by decide)
  exact ⟨by decide, h.1⟩

end AnyLangPod
